import Mathlib

/-!
Verification development for the CRUD API service (src/index.ts).

The development shallowly embeds the authentication core of the service:
the zod `userSchema` validation, the bcrypt password hashing collaborator,
the jsonwebtoken sign/verify collaborator, the `POST /register` and
`POST /login` handlers, and the `authenticateToken` middleware that gates
every route registered after `app.use(authenticateToken)`.

External collaborators (bcrypt, jsonwebtoken, the knex-backed sqlite
store) are modelled extensionally by their documented input/output
behaviour; the handler and middleware logic is translated line by line
from src/index.ts.
-/

namespace CrudApi

/-- Extensional model of a bcrypt digest, as produced by
`bcrypt.hash(password, 10)` (src/index.ts line 110). A real digest embeds
the random salt and the one-way image H(plaintext, salt); since H is
injective in the plaintext for a fixed salt (collisions ignored), the
image is represented by the plaintext itself. The digest is an opaque
stored value: no handler ever places it in a response body. -/
structure BcryptDigest where
  salt : Nat
  image : String
deriving DecidableEq

/-- Model of `bcrypt.hash(plaintext, rounds)`: the salt is the random
per-call input, made explicit as a parameter. -/
def bcryptHash (plaintext : String) (salt : Nat) : BcryptDigest :=
  ⟨salt, plaintext⟩

/-- Model of `bcrypt.compare(plaintext, digest)` (src/index.ts line 136):
recompute the digest with the salt embedded in the stored digest and
compare. -/
def bcryptCompare (plaintext : String) (digest : BcryptDigest) : Bool :=
  bcryptHash plaintext digest.salt == digest

/-- Row of the `users` table (src/index.ts lines 54-65): autoincrement
integer id, unique username, and the stored password hash (the column is
named `password` in the schema but always holds a bcrypt digest). -/
structure UserRow where
  id : Nat
  username : String
  password : BcryptDigest
deriving DecidableEq

/-- State of the `users` table together with the autoincrement counter
for the next id. -/
structure Db where
  users : List UserRow
  nextId : Nat
deriving DecidableEq

/-- Model of `db("users").where({ username }).first()` (src/index.ts
lines 104 and 130): first row whose username matches. -/
def findByUsername (db : Db) (username : String) : Option UserRow :=
  db.users.find? (fun r => r.username == username)

/-- Model of the zod `userSchema` (src/index.ts lines 34-37):
`username: z.string().min(1)`, `password: z.string().min(6)`.
Returns true exactly when `safeParse` succeeds. -/
def userSchema (username password : String) : Bool :=
  decide (1 ≤ username.length) && decide (6 ≤ password.length)

/-- Model of `parsed.error.format()` for the user schema: one message per
violated minimum-length constraint, in field order. -/
def zodFormatErrors (username password : String) : List String :=
  (if username.length < 1 then ["String must contain at least 1 character(s)"] else []) ++
  (if password.length < 6 then ["String must contain at least 6 character(s)"] else [])

/-- Payload signed into a session token by `jwt.sign` (src/index.ts line
142): the claims `userId` and `username` given by the handler, plus the
`iat` and `exp` claims the jsonwebtoken library adds for
`expiresIn: "1h"` (exp = iat + 3600 seconds). -/
structure Payload where
  userId : Nat
  username : String
  iat : Nat
  exp : Nat
deriving DecidableEq

/-- Serialization of the payload into the byte sequence that is signed
and carried inside the token (in a real JWT: base64url of the JSON
claims). The encoding is injective and decodable. -/
def encodePayload (p : Payload) : List Nat :=
  p.userId :: p.iat :: p.exp :: p.username.data.map Char.toNat

/-- Parse of the serialized payload back into its claims; fails on a
byte sequence that is not a well-formed payload. -/
def decodePayload : List Nat → Option Payload
  | uid :: iat :: exp :: rest => some ⟨uid, String.mk (rest.map Char.ofNat), iat, exp⟩
  | _ => none

/-- Extensional model of the HMAC the jsonwebtoken library computes over
the serialized payload with the process-wide secret: injective in both
the secret and the payload bytes, so two signatures agree exactly when
both inputs agree. -/
def macSign (secret : String) (payloadBytes : List Nat) : String × List Nat :=
  (secret, payloadBytes)

/-- A session token as put on the wire: the serialized payload together
with the signature presented for it. The payload part is attacker
writable; the signature binds it to the secret. -/
structure Token where
  payloadBytes : List Nat
  sig : String × List Nat
deriving DecidableEq

/-- Model of `jwt.sign({ userId, username }, JWT_SECRET, { expiresIn: "1h" })`
(src/index.ts line 142). `process.env.JWT_SECRET` may be absent, hence
the `Option String` secret; the library throws when given no secret,
modelled as `none`. -/
def jwtSign (secret : Option String) (userId : Nat) (username : String) (now : Nat) :
    Option Token :=
  match secret with
  | none => none
  | some s =>
    let bytes := encodePayload ⟨userId, username, now, now + 3600⟩
    some ⟨bytes, macSign s bytes⟩

/-- Outcome of `jwt.verify` as observed by the callback in
`authenticateToken` (src/index.ts lines 82-89): success with the decoded
claims, or one of the distinct error classes the library reports
(invalid signature or malformed token, expired token, missing secret). -/
inductive VerifyResult where
  | ok (userId : Nat) (username : String)
  | invalidSignature
  | expired
  | missingSecret
deriving DecidableEq

/-- True exactly when the verification outcome is an error, i.e. when
the `jwt.verify` callback receives a non-null `err`. -/
def verifyFailed : VerifyResult → Bool
  | VerifyResult.ok _ _ => false
  | _ => true

/-- Model of `jwt.verify(token, JWT_SECRET, cb)`: the signature is
re-derived from the presented payload bytes and the secret and compared
first; only a token whose signature matches has its claims decoded and
its expiry checked (expired when the clock has reached `exp`). -/
def jwtVerify (secret : Option String) (now : Nat) (tok : Token) : VerifyResult :=
  match secret with
  | none => VerifyResult.missingSecret
  | some s =>
    if tok.sig ≠ macSign s tok.payloadBytes then VerifyResult.invalidSignature
    else
      match decodePayload tok.payloadBytes with
      | none => VerifyResult.invalidSignature
      | some p =>
        if p.exp ≤ now then VerifyResult.expired
        else VerifyResult.ok p.userId p.username

/-- Body of a JSON response produced by the handlers: a message object,
a zod errors object, a token object (login success), or an
id-and-username object (the shape of the rows `GET /users` returns). -/
inductive Body where
  | message (text : String)
  | errors (fieldErrors : List String)
  | tokenJson (tok : Token)
  | summary (id : Nat) (username : String)
deriving DecidableEq

/-- True exactly on a zod errors body. -/
def isErrorsBody : Body → Bool
  | Body.errors _ => true
  | _ => false

/-- True exactly on an id-and-username summary body. -/
def isSummaryBody : Body → Bool
  | Body.summary _ _ => true
  | _ => false

/-- HTTP response: status code and JSON body. -/
structure Response where
  status : Nat
  body : Body
deriving DecidableEq

/-- Model of the `POST /register` handler (src/index.ts lines 94-116):
validate against `userSchema` (400 with formatted errors on failure),
reject an existing username (400 with a message), otherwise hash the
password, insert the row, and answer 201 with a message. Returns the
response together with the resulting table state. -/
def register (db : Db) (username password : String) (salt : Nat) : Response × Db :=
  if !(userSchema username password) then
    (⟨400, Body.errors (zodFormatErrors username password)⟩, db)
  else
    match findByUsername db username with
    | some _ => (⟨400, Body.message "Username already taken"⟩, db)
    | none =>
      let hashedPassword := bcryptHash password salt
      (⟨201, Body.message "User registered successfully"⟩,
       ⟨db.users ++ [⟨db.nextId, username, hashedPassword⟩], db.nextId + 1⟩)

/-- Model of the `POST /login` handler (src/index.ts lines 120-145):
validate against `userSchema`, look the user up by username, compare the
password against the stored digest, and on success sign and return a
token. `none` models the handler dying on the `jwt.sign` throw when the
secret is absent (the handler has no try/catch). -/
def login (db : Db) (username password : String) (secret : Option String) (now : Nat) :
    Option Response :=
  if !(userSchema username password) then
    some ⟨400, Body.errors (zodFormatErrors username password)⟩
  else
    match findByUsername db username with
    | none => some ⟨400, Body.message "Invalid credentials"⟩
    | some user =>
      if !(bcryptCompare password user.password) then
        some ⟨400, Body.message "Invalid credentials"⟩
      else
        match jwtSign secret user.id user.username now with
        | none => none
        | some tok => some ⟨200, Body.tokenJson tok⟩

/-- Test whether the pattern is an initial segment of the list. -/
def leadsWith : List Char → List Char → Bool
  | [], _ => true
  | _ :: _, [] => false
  | p :: ps, c :: cs => p == c && leadsWith ps cs

/-- Remove the first occurrence of the pattern from the list, as
JavaScript `String.prototype.replace` with an empty replacement does. -/
def dropFirstOccurrence (pat : List Char) : List Char → List Char
  | [] => []
  | c :: rest =>
    if leadsWith pat (c :: rest) then (c :: rest).drop pat.length
    else c :: dropFirstOccurrence pat rest

/-- Model of `header.replace("Bearer ", "")` (src/index.ts line 76). -/
def stripBearer (header : String) : String :=
  String.mk (dropFirstOccurrence "Bearer ".data header.data)

/-- Outcome of the `authenticateToken` middleware: either a short-circuit
response, or a hand-off to the downstream handler with the decoded
identity attached as `req.user`. -/
inductive GateOutcome where
  | halt (resp : Response)
  | next (userId : Nat) (username : String)
deriving DecidableEq

/-- Model of the `authenticateToken` middleware (src/index.ts lines
75-90). The header may be absent; `!token` in the source is true both
for a missing header and for the empty string left by the replace. The
`verifyTok` parameter is the codec call `jwt.verify(token, JWT_SECRET, cb)`
as a function of the presented token string. -/
def authenticateToken (verifyTok : String → VerifyResult) (authHeader : Option String) :
    GateOutcome :=
  let token : Option String := authHeader.map stripBearer
  match token with
  | none => GateOutcome.halt ⟨401, Body.message "Access denied, token missing"⟩
  | some t =>
    if t = "" then GateOutcome.halt ⟨401, Body.message "Access denied, token missing"⟩
    else
      match verifyTok t with
      | VerifyResult.ok uid un => GateOutcome.next uid un
      | _ => GateOutcome.halt ⟨403, Body.message "Invalid token"⟩

/-- Composition `app.use(authenticateToken)` followed by any route
handler registered after it (src/index.ts line 149 and the routes below
it): the handler runs, with the resolved identity, only when the gate
hands off. The boolean records whether the downstream handler executed. -/
def handleProtected (verifyTok : String → VerifyResult) (authHeader : Option String)
    (handler : Nat → String → Response) : Response × Bool :=
  match authenticateToken verifyTok authHeader with
  | GateOutcome.halt r => (r, false)
  | GateOutcome.next uid un => (handler uid un, true)

/-- Process environment as far as the core reads it: the optional
`JWT_SECRET` variable. -/
structure Env where
  jwtSecret : Option String
deriving DecidableEq

/-- Model of process startup (src/index.ts lines 16, 19-25, 41-65,
228-231): `config()` loads the environment, the tables are created, and
`app.listen` is reached unconditionally — no statement on the startup
path reads or validates `JWT_SECRET`, so the process serves requests for
every environment. -/
def startupServes (_env : Env) : Bool :=
  true

/-- Decoding inverts encoding: the serialized payload carries exactly its
claims. -/
theorem decodePayload_encodePayload (p : Payload) :
    decodePayload (encodePayload p) = some p := by
  simp [decodePayload, encodePayload, List.map_map, Function.comp_def, Char.ofNat_toNat]

/-- Looking up a username in the table right after its row was appended
finds that row, provided the username was absent before. -/
theorem find_append_fresh (users : List UserRow) (u : String) (row : UserRow)
    (hfree : users.find? (fun r => r.username == u) = none) (hu : row.username = u) :
    (users ++ [row]).find? (fun r => r.username == u) = some row := by
  rw [List.find?_append, hfree]
  simp [List.find?, hu]

/-- Successful registration inserts exactly one row, with the next id and
the hash of the supplied password. -/
theorem register_success_state (db : Db) (username password : String) (salt : Nat)
    (hval : userSchema username password = true)
    (hfree : findByUsername db username = none) :
    register db username password salt =
      (⟨201, Body.message "User registered successfully"⟩,
       ⟨db.users ++ [⟨db.nextId, username, bcryptHash password salt⟩], db.nextId + 1⟩) := by
  simp [register, hval, hfree]

/-- C1: for every pair with a non-empty username, a password of at least
6 characters, and a username not yet registered, register answers 201,
a subsequent login with the same credentials answers 200 with a token,
and verifying that token (at any time before its expiry) succeeds and
resolves to exactly the id and username of the registered user. -/
theorem register_then_login_roundtrip
    (db : Db) (username password : String) (salt : Nat) (secret : String)
    (tLogin tVerify : Nat)
    (hval : userSchema username password = true)
    (hfree : findByUsername db username = none)
    (htime : tVerify < tLogin + 3600) :
    (register db username password salt).1.status = 201 ∧
    ∃ tok,
      login (register db username password salt).2 username password (some secret) tLogin
        = some ⟨200, Body.tokenJson tok⟩ ∧
      jwtVerify (some secret) tVerify tok = VerifyResult.ok db.nextId username := by
  have hreg := register_success_state db username password salt hval hfree
  have hfree0 : db.users.find? (fun r => r.username == username) = none := hfree
  have hfind : findByUsername (register db username password salt).2 username
      = some ⟨db.nextId, username, bcryptHash password salt⟩ := by
    rw [hreg]
    exact find_append_fresh db.users username _ hfree0 rfl
  have hcmp : bcryptCompare password (bcryptHash password salt) = true := by
    simp [bcryptCompare, bcryptHash]
  refine ⟨by rw [hreg], ?_⟩
  refine ⟨⟨encodePayload ⟨db.nextId, username, tLogin, tLogin + 3600⟩,
    macSign secret (encodePayload ⟨db.nextId, username, tLogin, tLogin + 3600⟩)⟩, ?_, ?_⟩
  · simp [login, hval, hfind, hcmp, jwtSign]
  · have hnl : ¬ (tLogin + 3600 ≤ tVerify) := by omega
    simp [jwtVerify, decodePayload_encodePayload, hnl]

/-- C1 witness at a concrete input. -/
theorem register_then_login_roundtrip_witness :
    (register ⟨[], 1⟩ "alice" "secret1" 0).1.status = 201 ∧
    ∃ tok,
      login (register ⟨[], 1⟩ "alice" "secret1" 0).2 "alice" "secret1" (some "topsecret") 0
        = some ⟨200, Body.tokenJson tok⟩ ∧
      jwtVerify (some "topsecret") 10 tok = VerifyResult.ok 1 "alice" :=
  register_then_login_roundtrip ⟨[], 1⟩ "alice" "secret1" 0 "topsecret" 0 10
    (by decide) rfl (by decide)

/-- C2: for every protected route (any handler behind
`app.use(authenticateToken)`) and every codec: a request with no
Authorization header, or one whose header strips to an empty token, gets
401 and the handler never executes; a request whose token fails
verification gets 403 and the handler never executes; only on successful
verification does the handler run, with the resolved identity. -/
theorem auth_gate_short_circuits
    (verifyTok : String → VerifyResult) (handler : Nat → String → Response) :
    (handleProtected verifyTok none handler
        = (⟨401, Body.message "Access denied, token missing"⟩, false)) ∧
    (∀ h, stripBearer h = "" →
      handleProtected verifyTok (some h) handler
        = (⟨401, Body.message "Access denied, token missing"⟩, false)) ∧
    (∀ h, stripBearer h ≠ "" → verifyFailed (verifyTok (stripBearer h)) = true →
      handleProtected verifyTok (some h) handler
        = (⟨403, Body.message "Invalid token"⟩, false)) ∧
    (∀ h uid un, stripBearer h ≠ "" → verifyTok (stripBearer h) = VerifyResult.ok uid un →
      handleProtected verifyTok (some h) handler = (handler uid un, true)) := by
  refine ⟨rfl, ?_, ?_, ?_⟩
  · intro h he
    simp [handleProtected, authenticateToken, he]
  · intro h hne hfail
    cases hv : verifyTok (stripBearer h) with
    | ok uid un => rw [hv] at hfail; simp [verifyFailed] at hfail
    | invalidSignature => simp [handleProtected, authenticateToken, hne, hv]
    | expired => simp [handleProtected, authenticateToken, hne, hv]
    | missingSecret => simp [handleProtected, authenticateToken, hne, hv]
  · intro h uid un hne hv
    simp [handleProtected, authenticateToken, hne, hv]

/-- Demonstration codec used by witnesses: accepts one specific token
string. -/
def demoVerifyTok (t : String) : VerifyResult :=
  if t = "tick" then VerifyResult.ok 1 "alice" else VerifyResult.invalidSignature

/-- Demonstration downstream handler used by witnesses. -/
def demoHandler (uid : Nat) (un : String) : Response :=
  ⟨200, Body.summary uid un⟩

/-- C2 witness at a concrete input: a garbage bearer token is rejected
with 403 and the handler does not run. -/
theorem auth_gate_short_circuits_witness :
    handleProtected demoVerifyTok (some "Bearer junk") demoHandler
      = (⟨403, Body.message "Invalid token"⟩, false) :=
  (auth_gate_short_circuits demoVerifyTok demoHandler).2.2.1 "Bearer junk"
    (by decide) (by decide)

/-- C3: a login with a registered username but a wrong password and a
login with a nonexistent username produce identical responses, namely
400 with the message Invalid credentials, so the two failure causes are
indistinguishable to the caller. -/
theorem login_failures_indistinguishable
    (db : Db) (secret : Option String) (now1 now2 : Nat)
    (u1 p1 u2 p2 : String)
    (hv1 : userSchema u1 p1 = true) (hv2 : userSchema u2 p2 = true)
    (user : UserRow)
    (hfound : findByUsername db u1 = some user)
    (hmismatch : bcryptCompare p1 user.password = false)
    (hmissing : findByUsername db u2 = none) :
    login db u1 p1 secret now1 = login db u2 p2 secret now2 ∧
    login db u1 p1 secret now1 = some ⟨400, Body.message "Invalid credentials"⟩ := by
  constructor <;> simp [login, hv1, hv2, hfound, hmismatch, hmissing]

/-- C3 witness at a concrete input: wrong password for alice versus
unknown user bob. -/
theorem login_failures_indistinguishable_witness :
    login (register ⟨[], 1⟩ "alice" "secret1" 0).2 "alice" "wrongpw" (some "k") 5
      = login (register ⟨[], 1⟩ "alice" "secret1" 0).2 "bob" "whatever" (some "k") 7 ∧
    login (register ⟨[], 1⟩ "alice" "secret1" 0).2 "alice" "wrongpw" (some "k") 5
      = some ⟨400, Body.message "Invalid credentials"⟩ :=
  login_failures_indistinguishable (register ⟨[], 1⟩ "alice" "secret1" 0).2 (some "k") 5 7
    "alice" "wrongpw" "bob" "whatever" (by decide) (by decide)
    ⟨1, "alice", ⟨0, "secret1"⟩⟩ (by decide) (by decide) (by decide)

/-- C5 counterexample: registering alice twice gives 201 then 400, but
the duplicate response body is the message Username already taken, not a
zod errors body as the claim states; and a second attempt with a short
password fails schema validation with an errors body instead of the
duplicate-username outcome. -/
theorem duplicate_register_errors_body_refuted :
    (register ⟨[], 1⟩ "alice" "secret1" 0).1.status = 201 ∧
    (register (register ⟨[], 1⟩ "alice" "secret1" 0).2 "alice" "other123" 1).1
      = ⟨400, Body.message "Username already taken"⟩ ∧
    isErrorsBody (register (register ⟨[], 1⟩ "alice" "secret1" 0).2 "alice" "other123" 1).1.body
      = false ∧
    (register (register ⟨[], 1⟩ "alice" "secret1" 0).2 "alice" "abc" 1).1
      = ⟨400, Body.errors ["String must contain at least 6 character(s)"]⟩ := by
  decide

/-- C5 amended: registering the same username twice sequentially yields
201 the first time; the second attempt, with any password that passes
schema validation, fails with 400 and the message body Username already
taken (a password failing validation is instead rejected by the schema
with an errors body, before the duplicate check). -/
theorem duplicate_register_message_body
    (db : Db) (u p p2 : String) (s1 s2 : Nat)
    (hv : userSchema u p = true) (hv2 : userSchema u p2 = true)
    (hfree : findByUsername db u = none) :
    (register db u p s1).1.status = 201 ∧
    (register (register db u p s1).2 u p2 s2).1
      = ⟨400, Body.message "Username already taken"⟩ := by
  have hreg := register_success_state db u p s1 hv hfree
  have hfree0 : db.users.find? (fun r => r.username == u) = none := hfree
  have hfind : findByUsername (register db u p s1).2 u
      = some ⟨db.nextId, u, bcryptHash p s1⟩ := by
    rw [hreg]
    exact find_append_fresh db.users u _ hfree0 rfl
  refine ⟨by rw [hreg], ?_⟩
  generalize hdb1 : (register db u p s1).2 = db1 at hfind
  simp [register, hv2, hfind]

/-- C5 amended witness at a concrete input. -/
theorem duplicate_register_message_body_witness :
    (register ⟨[], 1⟩ "alice" "secret1" 0).1.status = 201 ∧
    (register (register ⟨[], 1⟩ "alice" "secret1" 0).2 "alice" "other123" 1).1
      = ⟨400, Body.message "Username already taken"⟩ :=
  duplicate_register_message_body ⟨[], 1⟩ "alice" "secret1" "other123" 0 1
    (by decide) (by decide) rfl

/-- C6 counterexample: a successful registration answers 201 with the
fixed body message User registered successfully — not a summary carrying
the new id and username, as the claim states. -/
theorem register_summary_refuted :
    (register ⟨[], 1⟩ "alice" "secret1" 0).1
      = ⟨201, Body.message "User registered successfully"⟩ ∧
    isSummaryBody (register ⟨[], 1⟩ "alice" "secret1" 0).1.body = false := by
  decide

/-- C6 amended: every successful registration answers 201 with the same
constant message body, which carries neither the id, the username, the
password, nor the hash (the response is independent of the registered
data). -/
theorem register_success_response_constant
    (db : Db) (u p : String) (s : Nat)
    (hv : userSchema u p = true) (hfree : findByUsername db u = none) :
    (register db u p s).1 = ⟨201, Body.message "User registered successfully"⟩ ∧
    isSummaryBody (register db u p s).1.body = false ∧
    (∀ db2 u2 p2 s2, userSchema u2 p2 = true → findByUsername db2 u2 = none →
      (register db2 u2 p2 s2).1 = (register db u p s).1) := by
  have h1 := register_success_state db u p s hv hfree
  refine ⟨by rw [h1], by rw [h1]; rfl, ?_⟩
  intro db2 u2 p2 s2 hv2 hfree2
  rw [h1, register_success_state db2 u2 p2 s2 hv2 hfree2]

/-- C6 amended witness at a concrete input. -/
theorem register_success_response_constant_witness :
    (register ⟨[], 1⟩ "bob" "hunter22" 3).1
      = ⟨201, Body.message "User registered successfully"⟩ ∧
    isSummaryBody (register ⟨[], 1⟩ "bob" "hunter22" 3).1.body = false ∧
    (∀ db2 u2 p2 s2, userSchema u2 p2 = true → findByUsername db2 u2 = none →
      (register db2 u2 p2 s2).1 = (register ⟨[], 1⟩ "bob" "hunter22" 3).1) :=
  register_success_response_constant ⟨[], 1⟩ "bob" "hunter22" 3 (by decide) rfl

/-- C4 counterexample: with no JWT_SECRET in the environment the process
still starts and serves requests, and the absence is observed
per-request — a login whose credential check succeeds dies on the signing
call, and verification reports the missing secret as a request-time
error. -/
theorem secret_absence_not_startup_fatal :
    startupServes ⟨none⟩ = true ∧
    login (register ⟨[], 1⟩ "alice" "secret1" 0).2 "alice" "secret1" none 5 = none ∧
    jwtVerify none 5 ⟨[1, 2, 3, 97], ("", [1, 2, 3, 97])⟩ = VerifyResult.missingSecret := by
  decide

/-- C4 amended: the startup path performs no validation of the signing
secret — the process serves requests for every environment, including one
with the secret absent; absence surfaces per-request instead, as a dead
login on the signing call and a missing-secret verification error at the
gate. -/
theorem secret_absence_surfaces_per_request
    (env : Env) (hnone : env.jwtSecret = none)
    (db : Db) (u p : String) (now : Nat) (user : UserRow)
    (hv : userSchema u p = true)
    (hfound : findByUsername db u = some user)
    (hcmp : bcryptCompare p user.password = true)
    (tok : Token) (t : Nat) :
    startupServes env = true ∧
    login db u p env.jwtSecret now = none ∧
    jwtVerify env.jwtSecret t tok = VerifyResult.missingSecret := by
  rw [hnone]
  exact ⟨rfl, by simp [login, hv, hfound, hcmp, jwtSign], rfl⟩

/-- C4 amended witness at a concrete input. -/
theorem secret_absence_surfaces_per_request_witness :
    startupServes ⟨none⟩ = true ∧
    login (register ⟨[], 1⟩ "alice" "secret1" 0).2 "alice" "secret1" (Env.mk none).jwtSecret 5
      = none ∧
    jwtVerify (Env.mk none).jwtSecret 9 ⟨[1, 2, 3, 97], ("", [1, 2, 3, 97])⟩
      = VerifyResult.missingSecret :=
  secret_absence_surfaces_per_request ⟨none⟩ rfl (register ⟨[], 1⟩ "alice" "secret1" 0).2
    "alice" "secret1" 5 ⟨1, "alice", ⟨0, "secret1"⟩⟩ (by decide) (by decide) (by decide)
    ⟨[1, 2, 3, 97], ("", [1, 2, 3, 97])⟩ 9

/-- C7: altering any single byte of the payload of an issued token makes
verification fail with InvalidSignature, at every verification time —
in particular before and independently of the expiry check, and without
any payload field being trusted. -/
theorem tampered_token_invalid_signature
    (secret : String) (userId : Nat) (username : String) (tIssue : Nat) (tok : Token)
    (hsig : jwtSign (some secret) userId username tIssue = some tok)
    (i : Nat) (hi : i < tok.payloadBytes.length) (b : Nat)
    (hb : b ≠ tok.payloadBytes[i]) (tCheck : Nat) :
    jwtVerify (some secret) tCheck ⟨tok.payloadBytes.set i b, tok.sig⟩
      = VerifyResult.invalidSignature := by
  have htok : tok = ⟨encodePayload ⟨userId, username, tIssue, tIssue + 3600⟩,
      macSign secret (encodePayload ⟨userId, username, tIssue, tIssue + 3600⟩)⟩ := by
    simpa [jwtSign] using hsig.symm
  subst htok
  set bytes := encodePayload ⟨userId, username, tIssue, tIssue + 3600⟩ with hbytes
  have hne : bytes.set i b ≠ bytes := by
    intro he
    have hlen : i < (bytes.set i b).length := by simpa using hi
    have hgot : (bytes.set i b)[i] = b := List.getElem_set_self hlen
    rw [List.getElem_of_eq he] at hgot
    exact hb hgot.symm
  have hcond : macSign secret bytes ≠ macSign secret (bytes.set i b) := by
    intro he
    exact hne (congrArg Prod.snd he).symm
  simp only [jwtVerify]
  rw [if_pos hcond]

/-- C7 witness at a concrete input: the token issued for user 1 named a
at time 0, with payload byte 0 changed from 1 to 2, checked at a time
well past expiry. -/
theorem tampered_token_invalid_signature_witness :
    jwtVerify (some "k") 99999
      ⟨(Token.mk [1, 0, 3600, 97] ("k", [1, 0, 3600, 97])).payloadBytes.set 0 2,
       (Token.mk [1, 0, 3600, 97] ("k", [1, 0, 3600, 97])).sig⟩
      = VerifyResult.invalidSignature :=
  tampered_token_invalid_signature "k" 1 "a" 0 ⟨[1, 0, 3600, 97], ("k", [1, 0, 3600, 97])⟩
    (by decide) 0 (by decide) 2 (by decide) 99999

/-- C8: a validly signed token verified at or after the end of its
one-hour window fails with Expired (a distinct outcome from
InvalidSignature), while the same token verified at any time strictly
before expiry succeeds with the signed identity. -/
theorem token_expiry_window
    (secret : String) (userId : Nat) (username : String) (tIssue : Nat) (tok : Token)
    (hsig : jwtSign (some secret) userId username tIssue = some tok)
    (tLate tEarly : Nat)
    (hlate : tIssue + 3600 ≤ tLate) (hearly : tEarly < tIssue + 3600) :
    jwtVerify (some secret) tLate tok = VerifyResult.expired ∧
    VerifyResult.expired ≠ VerifyResult.invalidSignature ∧
    jwtVerify (some secret) tEarly tok = VerifyResult.ok userId username := by
  have htok : tok = ⟨encodePayload ⟨userId, username, tIssue, tIssue + 3600⟩,
      macSign secret (encodePayload ⟨userId, username, tIssue, tIssue + 3600⟩)⟩ := by
    simpa [jwtSign] using hsig.symm
  subst htok
  have hnl : ¬ (tIssue + 3600 ≤ tEarly) := by omega
  refine ⟨?_, by decide, ?_⟩
  · simp [jwtVerify, decodePayload_encodePayload, hlate]
  · simp [jwtVerify, decodePayload_encodePayload, hnl]

/-- C8 witness at a concrete input. -/
theorem token_expiry_window_witness :
    jwtVerify (some "k") 3600 ⟨[1, 0, 3600, 97], ("k", [1, 0, 3600, 97])⟩
      = VerifyResult.expired ∧
    VerifyResult.expired ≠ VerifyResult.invalidSignature ∧
    jwtVerify (some "k") 3599 ⟨[1, 0, 3600, 97], ("k", [1, 0, 3600, 97])⟩
      = VerifyResult.ok 1 "a" :=
  token_expiry_window "k" 1 "a" 0 ⟨[1, 0, 3600, 97], ("k", [1, 0, 3600, 97])⟩
    (by decide) 3600 3599 (by decide) (by decide)

/-- C9: every register request that does not answer 201 — a validation
failure or a duplicate username — leaves the users table and the id
counter exactly unchanged. -/
theorem register_failure_preserves_db
    (db : Db) (u p : String) (s : Nat)
    (hfail : (register db u p s).1.status ≠ 201) :
    (register db u p s).2 = db := by
  by_cases hv : userSchema u p = true
  · cases hfind : findByUsername db u with
    | some row => simp [register, hv, hfind]
    | none =>
      exact absurd (congrArg Response.status
        (congrArg Prod.fst (register_success_state db u p s hv hfind))) hfail
  · simp [register, Bool.eq_false_iff.mpr hv]

/-- C9 witness at a concrete input: a too-short password leaves the
table unchanged. -/
theorem register_failure_preserves_db_witness :
    (register ⟨[], 1⟩ "alice" "abc" 0).2 = ⟨[], 1⟩ :=
  register_failure_preserves_db ⟨[], 1⟩ "alice" "abc" 0 (by decide)

/-- C10: a login request whose password is shorter than 6 characters is
rejected by the shared userSchema with 400 and a zod errors body,
independently of the table state and the clock (so before any user
lookup), and never produces the Invalid credentials outcome. -/
theorem login_short_password_rejected
    (db db2 : Db) (u p : String) (secret : Option String) (now now2 : Nat)
    (hp : p.length < 6) :
    login db u p secret now = some ⟨400, Body.errors (zodFormatErrors u p)⟩ ∧
    login db u p secret now = login db2 u p secret now2 ∧
    login db u p secret now ≠ some ⟨400, Body.message "Invalid credentials"⟩ := by
  have h6 : ¬ (6 ≤ p.length) := by omega
  refine ⟨?_, ?_, ?_⟩ <;> simp [login, userSchema, h6]

/-- C10 witness at a concrete input. -/
theorem login_short_password_rejected_witness :
    login (register ⟨[], 1⟩ "alice" "secret1" 0).2 "alice" "abc" (some "k") 5
      = some ⟨400, Body.errors (zodFormatErrors "alice" "abc")⟩ ∧
    login (register ⟨[], 1⟩ "alice" "secret1" 0).2 "alice" "abc" (some "k") 5
      = login ⟨[], 1⟩ "alice" "abc" (some "k") 77 ∧
    login (register ⟨[], 1⟩ "alice" "secret1" 0).2 "alice" "abc" (some "k") 5
      ≠ some ⟨400, Body.message "Invalid credentials"⟩ :=
  login_short_password_rejected (register ⟨[], 1⟩ "alice" "secret1" 0).2 ⟨[], 1⟩
    "alice" "abc" (some "k") 5 77 (by decide)

end CrudApi
